import Mathlib

/-!
# Verification of php_mt_seed.rs

A shallow embedding of the php_mt_seed.rs tool (src/src/main.rs) together
with a model of its WGSL compute shader, and proofs of the specification
claims about argument normalization, linting, the GPU dispatch geometry,
result readback, and the seed-recovery round trip.

Machine integers (`u32`) are embedded as `Nat` with explicit `% 2^32`
where wrap-around matters.  Host functions that mutate a `Vec<u32>` in
place are embedded as pure functions `List Nat → List Nat`.
-/

namespace PhpMtSeed

/-- Embeds `normalize_arguments` (src/src/main.rs lines 24-37).
The Rust code mutates `arguments` in place; here the final vector is
returned.  `arguments[len - 1]` is embedded as `getD (len - 1) 0`; the
default is never reached because the branch guard forces `len % 4 == 1`,
hence a nonempty vector. -/
def normalize_arguments (arguments : List Nat) : List Nat :=
  let a1 :=
    if arguments.length % 4 = 1 then
      arguments ++ [arguments.getD (arguments.length - 1) 0]
    else arguments
  if a1.length % 4 = 2 then a1 ++ [0, 0x7fffffff] else a1

/-- One slot check of `lint_arguments` (src/src/main.rs lines 46-55):
the body of the `&[match_min, match_max, range_min, range_max]` arm. -/
def slot_ok (mmin mmax rmin rmax : Nat) : Bool :=
  !(mmin > mmax || rmin > rmax || mmax < rmin || mmin > rmax
      || rmax > 0x7fffffff || mmax > 0x7fffffff)

/-- The `for chunk in arguments.chunks(4)` loop of `lint_arguments`
(src/src/main.rs lines 44-59): `chunks(4)` yields 4-element chunks with a
shorter final chunk when the length is not a multiple of 4; a chunk that
is not exactly `[match_min, match_max, range_min, range_max]` falls into
the `_ => return false` arm. -/
def lint_chunks : List Nat → Bool
  | [] => true
  | mmin :: mmax :: rmin :: rmax :: rest =>
      slot_ok mmin mmax rmin rmax && lint_chunks rest
  | _ => false

/-- Embeds `lint_arguments` (src/src/main.rs lines 39-62). -/
def lint_arguments (arguments : List Nat) : Bool :=
  if arguments.isEmpty then false else lint_chunks arguments

/-- The invariants `lint_arguments` actually enforces on one 4-tuple
(the negation of the rejection condition at src/src/main.rs lines 47-52):
ordered endpoints, a nonempty intersection of `[mmin, mmax]` and
`[rmin, rmax]`, and both maxima within `0x7FFFFFFF`. -/
def slot_inv (mmin mmax rmin rmax : Nat) : Prop :=
  mmin ≤ mmax ∧ rmin ≤ rmax ∧ rmin ≤ mmax ∧ mmin ≤ rmax ∧
    rmax ≤ 0x7fffffff ∧ mmax ≤ 0x7fffffff

instance (mmin mmax rmin rmax : Nat) : Decidable (slot_inv mmin mmax rmin rmax) := by
  unfold slot_inv; infer_instance

/-- Embeds the host readback of one dispatch
(src/src/main.rs lines 284-300): word 0 of the 1000-word result buffer is
a count; `&result[1..1 + result[0]]` is returned, or `None` (with a
diagnostic on stderr) when `1 + result[0]` exceeds the buffer length. -/
def read_dispatch_results (result : List Nat) : Option (List Nat) :=
  let subslice_start := 1
  let subslice_end := 1 + result.headD 0
  if subslice_end > result.length then none
  else some ((result.drop subslice_start).take (subslice_end - subslice_start))

/-- Embeds the step loop of `main` (src/src/main.rs lines 317-329), with
the GPU abstracted by the list of raw result buffers read back, one per
step.  Returns `(exit code, printed seeds, steps completed)`: a `None`
readback makes the process exit with code 1 at that step. -/
def main_steps : List (List Nat) → Nat × List Nat × Nat
  | [] => (0, [], 0)
  | buf :: rest =>
      match read_dispatch_results buf with
      | none => (1, [], 1)
      | some seeds =>
          let r := main_steps rest
          (r.1, seeds ++ r.2.1, r.2.2 + 1)

/-- Embeds `main` (src/src/main.rs lines 303-332) up to the abstracted
GPU: `(exit code, usage printed, dispatches run)`.  On lint failure the
usage text is printed and `main` returns normally (exit 0) with no
dispatch. -/
def main_model (args : List Nat) (buffers : List (List Nat)) : Nat × Bool × Nat :=
  let arguments := normalize_arguments args
  if lint_arguments arguments = false then (0, true, 0)
  else
    let r := main_steps buffers
    (r.1, false, r.2.2)

/-- The candidate seed examined by invocation `inv` of workgroup `wg` in
the dispatch for `step`.  Modelled from the spec: the shader
`mt19937.wgsl` referenced at src/src/main.rs line 114 is not under src/;
the spec gives `s = step + 256·(workgroup_id · 256 + invocation_id)` with
workgroup size 256.  The dispatch extent `(65535, 1, 1)` and the 256
steps are in src/src/main.rs lines 239 and 317. -/
def seedOf (step wg inv : Nat) : Nat := step + 256 * (wg * 256 + inv)

/-- `s` is examined by some invocation of some of the 256 dispatches of
65535 workgroups of 256 invocations, as launched by src/src/main.rs
lines 239 and 317. -/
def dispatchCovers (s : Nat) : Prop :=
  ∃ step wg inv : Nat,
    step < 256 ∧ wg < 65535 ∧ inv < 256 ∧ seedOf step wg inv = s

/-! ## MT19937, PHP 7.1.0+ flavor

The compute shader `mt19937.wgsl` (referenced at src/src/main.rs line
114) is not under src/, so the generator and the predicate kernel are
modelled from the spec (spec.md sections 4.1 and 4.2), with the range
reduction taken from PHP 7.1's actual modulo-rejection algorithm as
pinned by the repository's tests (src/src/main.rs lines 334-387) and
spec.md section 8 — the 31-bit mask rejection of section 4.1's prose
contradicts both. -/

/-- Modelled from the spec: `state[i] = (1812433253 · (state[i-1] XOR
(state[i-1] >> 30)) + i) mod 2^32` for `i = 1..623` (mt19937.wgsl is
missing from src/).  Produces `n` further words given the previous word
`prev` at position `i - 1`. -/
def mtInitFrom (prev i : Nat) : Nat → List Nat
  | 0 => []
  | n + 1 =>
      let w := (1812433253 * (prev ^^^ (prev >>> 30)) + i) % 4294967296
      w :: mtInitFrom w (i + 1) n

/-- Modelled from the spec: seeding of the 624-word MT19937 state,
`state[0] = s` (mt19937.wgsl is missing from src/). -/
def mtInit (s : Nat) : List Nat := s :: mtInitFrom s 1 623

/-- Modelled from the spec: one in-place step of the twist, for index
`k`: `y = (state[k] AND 0x80000000) OR (state[(k+1) mod 624] AND
0x7FFFFFFF)`; `state[k] = state[(k+397) mod 624] XOR (y >> 1) XOR
(0x9908B0DF if (y AND 1) else 0)` (mt19937.wgsl is missing from src/). -/
def twistStep (state : List Nat) (k : Nat) : List Nat :=
  let y := (state.getD k 0 &&& 0x80000000) |||
    (state.getD ((k + 1) % 624) 0 &&& 0x7fffffff)
  state.set k
    (state.getD ((k + 397) % 624) 0 ^^^ (y >>> 1) ^^^
      (if y &&& 1 = 1 then 0x9908B0DF else 0))

/-- Modelled from the spec: the full twist runs `twistStep` in place for
each `k ∈ [0, 624)` in order (mt19937.wgsl is missing from src/). -/
def twist (state : List Nat) : List Nat := (List.range 624).foldl twistStep state

/-- Modelled from the spec: the tempering transform of one state word
(mt19937.wgsl is missing from src/).  Words are 32-bit, and every step
maps 32-bit words to 32-bit words because the left shifts are masked by
32-bit constants, so no explicit `% 2^32` is needed. -/
def temper (y : Nat) : Nat :=
  let y1 := y ^^^ (y >>> 11)
  let y2 := y1 ^^^ ((y1 <<< 7) &&& 0x9D2C5680)
  let y3 := y2 ^^^ ((y2 <<< 15) &&& 0xEFC60000)
  y3 ^^^ (y3 >>> 18)

/-- Modelled from the spec: an MT19937 state is 624 words plus an index
`i ∈ [0, 624]`; immediately after seeding `i = 624` (mt19937.wgsl is
missing from src/). -/
structure MTState where
  words : List Nat
  index : Nat
deriving DecidableEq, Repr

/-- Modelled from the spec: seeding sets the index to 624, forcing a
twist on the first output (mt19937.wgsl is missing from src/). -/
def mtSeed (s : Nat) : MTState := ⟨mtInit s, 624⟩

/-- Modelled from the spec and the repository's tests: one full 32-bit
tempered output `temper(state[i])`, twisting first when `i = 624`
(mt19937.wgsl is missing from src/).  This is PHP 7.1.0+'s
`php_mt_rand()`; the `>> 1` of spec.md section 4.1 belongs only to the
parameterless `mt_rand()` observation, see `slotDraw`. -/
def php_mt_rand (m : MTState) : Nat × MTState :=
  if m.index ≥ 624 then
    let st := twist m.words
    (temper (st.getD 0 0), ⟨st, 1⟩)
  else
    (temper (m.words.getD m.index 0), ⟨m.words, m.index + 1⟩)

/-- Modelled from the spec and the repository's tests: the modulo-bias
rejection loop of PHP 7.1's `rand_range32` — while `result > limit`,
redraw a full 32-bit word; once accepted, return `result % modulus`
(mt19937.wgsl is missing from src/).  The loop carries explicit fuel
counting redraws and returns `none` when the fuel runs out. -/
def randRangeLoop (limit modulus : Nat) : Nat → Nat → MTState → Option (Nat × MTState)
  | 0, result, m =>
      if result > limit then none else some (result % modulus, m)
  | fuel + 1, result, m =>
      if result > limit then
        let o := php_mt_rand m
        randRangeLoop limit modulus fuel o.1 o.2
      else some (result % modulus, m)

/-- Modelled from the spec and the repository's tests: PHP 7.1's
`rand_range32(umax)` — draw one full 32-bit word; return it unchanged
when `umax = 2^32 - 1`; mask it when `umax + 1` is a power of two;
otherwise reject results above
`limit = (2^32 - 1) - (2^32 - 1) % (umax + 1) - 1` and reduce the
accepted result modulo `umax + 1` (mt19937.wgsl is missing from src/).
The prose of spec.md section 4.1 describes a 31-bit mask rejection
instead, but that contradicts the repository's own tests
(src/src/main.rs lines 344-355 and 378-387) and spec.md section 8
scenarios 2 and 4, which pin exactly these PHP 7.1 semantics.  Note
`umax = 0` consumes one draw, like PHP. -/
def rand_range32 (m : MTState) (umax fuel : Nat) : Option (Nat × MTState) :=
  let o := php_mt_rand m
  if umax = 4294967295 then some o
  else
    let modulus := umax + 1
    if modulus &&& (modulus - 1) = 0 then some (o.1 &&& (modulus - 1), o.2)
    else randRangeLoop (4294967295 - 4294967295 % modulus - 1) modulus fuel o.1 o.2

/-- Modelled from the spec and the repository's tests: PHP 7.1's
`mt_rand(lo, hi) = lo + rand_range32(hi - lo)` with unsigned 32-bit
subtraction (mt19937.wgsl is missing from src/). -/
def php_mt_rand_range (m : MTState) (lo hi fuel : Nat) : Option (Nat × MTState) :=
  let umax := (hi + 4294967296 - lo) % 4294967296
  (rand_range32 m umax fuel).map (fun om => (lo + om.1, om.2))

/-- Modelled from the spec and the repository's tests: the observed
value of one slot.  The default range `(0, 0x7FFFFFFF)` — the one
`normalize_arguments` fills in — denotes a parameterless `mt_rand()`
observation, the full tempered word shifted right by one
(src/src/main.rs tests at lines 334-342 and 366-376); any other range
is PHP 7.1's `mt_rand(lo, hi)` (src/src/main.rs tests at lines 344-355
and 378-387) (mt19937.wgsl is missing from src/). -/
def slotDraw (m : MTState) (lo hi fuel : Nat) : Option (Nat × MTState) :=
  if lo = 0 ∧ hi = 0x7fffffff then
    let o := php_mt_rand m
    some (o.1 >>> 1, o.2)
  else php_mt_rand_range m lo hi fuel

/-- One observation slot `(match_min, match_max, range_min, range_max)`
(spec.md section 3). -/
structure Slot where
  match_min : Nat
  match_max : Nat
  range_min : Nat
  range_max : Nat
deriving DecidableEq, Repr

/-- Modelled from the spec: the reference generation of consecutive PHP
`mt_rand(lo, hi)` outputs from a running MT19937 state (spec.md section
4.1; mt19937.wgsl is missing from src/). -/
def phpOutputsGo (fuel : Nat) : MTState → List (Nat × Nat) → Option (List Nat)
  | _, [] => some []
  | m, (lo, hi) :: rest =>
      match slotDraw m lo hi fuel with
      | none => none
      | some (v, m') => (phpOutputsGo fuel m' rest).map (fun vs => v :: vs)

/-- Modelled from the spec: the first outputs of PHP 7.1.0+'s
`mt_rand(lo, hi)`, one per requested range, seeded with `s` (mt19937.wgsl
is missing from src/). -/
def phpOutputs (s : Nat) (ranges : List (Nat × Nat)) (fuel : Nat) : Option (List Nat) :=
  phpOutputsGo fuel (mtSeed s) ranges

/-- Modelled from the spec: the predicate kernel's slot loop — for each
slot compute `v = rand_range(range_min, range_max)` and reject when `v`
falls outside `[match_min, match_max]` (spec.md section 4.2; mt19937.wgsl
is missing from src/).  Fuel exhaustion in the rejection loop counts as a
rejection. -/
def kernelGo (fuel : Nat) : MTState → List Slot → Bool
  | _, [] => true
  | m, slot :: rest =>
      match slotDraw m slot.range_min slot.range_max fuel with
      | none => false
      | some (v, m') =>
          if v < slot.match_min || v > slot.match_max then false
          else kernelGo fuel m' rest

/-- Modelled from the spec: the predicate kernel ACCEPTs candidate seed
`s` for the given query (spec.md section 4.2; mt19937.wgsl is missing
from src/). -/
def kernelAccepts (s : Nat) (slots : List Slot) (fuel : Nat) : Bool :=
  kernelGo fuel (mtSeed s) slots

/-- Modelled from the spec: `s` is among the seeds printed by the full
search — `find_mersenne_seed` over all 256 steps (src/src/main.rs lines
317-329) — namely `s` is examined by some invocation and the predicate
kernel accepts it.  Overflow of a result buffer, which would abort the
run, is modelled separately by `read_dispatch_results`. -/
def searchEmits (slots : List Slot) (fuel s : Nat) : Prop :=
  dispatchCovers s ∧ kernelAccepts s slots fuel = true

/-- The diagonal query built from reference outputs `vs` and their
ranges: slot `(v_i, v_i, a_i, b_i)` (spec.md section 8, round-trip
law). -/
def diagSlots (vs : List Nat) (ranges : List (Nat × Nat)) : List Slot :=
  List.zipWith (fun v r => ⟨v, v, r.1, r.2⟩) vs ranges

/-- Chunking of a flat argument vector into 4-tuples, `none` when the
length is not a multiple of 4.  Mirrors the grouping performed by
`chunks(4)` in `lint_arguments` (src/src/main.rs line 44). -/
def toSlots : List Nat → Option (List Slot)
  | [] => some []
  | a :: b :: c :: d :: rest => (toSlots rest).map (fun ss => Slot.mk a b c d :: ss)
  | _ => none

/-- The per-slot invariant of `slot_inv`, on a `Slot`. -/
def slotInv (sl : Slot) : Prop :=
  slot_inv sl.match_min sl.match_max sl.range_min sl.range_max

instance (sl : Slot) : Decidable (slotInv sl) := by
  unfold slotInv; infer_instance

/-! ## Helper lemmas -/

theorem slot_ok_iff (a b c d : Nat) : slot_ok a b c d = true ↔ slot_inv a b c d := by
  simp only [slot_ok, slot_inv, Bool.not_eq_true', Bool.or_eq_false_iff,
    decide_eq_false_iff_not, not_lt]
  omega

theorem toSlots_length : ∀ (args : List Nat) (ss : List Slot),
    toSlots args = some ss → args.length = 4 * ss.length
  | [], ss => by
      intro h
      simp only [toSlots, Option.some.injEq] at h
      subst h; simp
  | [a], ss => by simp [toSlots]
  | [a, b], ss => by simp [toSlots]
  | [a, b, c], ss => by simp [toSlots]
  | a :: b :: c :: d :: rest, ss => by
      intro h
      simp only [toSlots, Option.map_eq_some'] at h
      obtain ⟨ss', hrest, rfl⟩ := h
      have := toSlots_length rest ss' hrest
      simp [this]; ring

theorem lint_chunks_iff : ∀ args : List Nat,
    lint_chunks args = true ↔
      ∃ ss : List Slot, toSlots args = some ss ∧ ∀ sl ∈ ss, slotInv sl
  | [] => by simp [lint_chunks, toSlots]
  | [a] => by simp [lint_chunks, toSlots]
  | [a, b] => by simp [lint_chunks, toSlots]
  | [a, b, c] => by simp [lint_chunks, toSlots]
  | a :: b :: c :: d :: rest => by
      simp only [lint_chunks, Bool.and_eq_true, lint_chunks_iff rest, toSlots,
        Option.map_eq_some', slot_ok_iff]
      constructor
      · rintro ⟨hok, ss', hss', hinv⟩
        exact ⟨Slot.mk a b c d :: ss', ⟨ss', hss', rfl⟩, by
          intro sl hsl
          rcases List.mem_cons.mp hsl with rfl | hsl
          · exact hok
          · exact hinv sl hsl⟩
      · rintro ⟨ss, ⟨ss', hss', rfl⟩, hinv⟩
        exact ⟨hinv _ (List.mem_cons_self _ _), ss', hss',
          fun sl hsl => hinv sl (List.mem_cons_of_mem _ hsl)⟩

/-! ## Claims -/

/-- C6: on a token vector whose length is `≡ 1 (mod 4)`,
`normalize_arguments` duplicates the final token and then appends `0`
and `0x7FFFFFFF` as the default range; in particular `[x]` normalizes to
`[x, x, 0, 0x7FFFFFFF]` and `[x, y]` to `[x, y, 0, 0x7FFFFFFF]`. -/
theorem claim_C6 :
    (∀ args : List Nat, args.length % 4 = 1 →
      normalize_arguments args =
        args ++ [args.getD (args.length - 1) 0, 0, 0x7fffffff]) ∧
    (∀ x : Nat, normalize_arguments [x] = [x, x, 0, 0x7fffffff]) ∧
    (∀ x y : Nat, normalize_arguments [x, y] = [x, y, 0, 0x7fffffff]) := by
  refine ⟨?_, ?_, ?_⟩
  · intro args h
    have h2 : (args.length + 1) % 4 = 2 := by omega
    simp [normalize_arguments, h, h2]
  · intro x
    simp [normalize_arguments]
  · intro x y
    simp [normalize_arguments]

/-- C6 witness: `normalize_arguments [7] = [7, 7, 0, 0x7FFFFFFF]`. -/
theorem claim_C6_witness : normalize_arguments [7] = [7, 7, 0, 0x7fffffff] :=
  claim_C6.2.1 7

/-- C7: `normalize_arguments` is the identity on every vector whose
length is a positive multiple of 4. -/
theorem claim_C7 (args : List Nat) (h : args.length % 4 = 0)
    (_hpos : 0 < args.length) : normalize_arguments args = args := by
  have h1 : ¬ args.length % 4 = 1 := by omega
  have h2 : ¬ args.length % 4 = 2 := by omega
  simp [normalize_arguments, h1, h2]

/-- C7 witness at the concrete canonical vector `[1, 2, 3, 4]`. -/
theorem claim_C7_witness : normalize_arguments [1, 2, 3, 4] = [1, 2, 3, 4] :=
  claim_C7 [1, 2, 3, 4] (by decide) (by decide)

/-- C8: a token vector whose length is `≡ 3 (mod 4)` is left unchanged
by `normalize_arguments` and then rejected by `lint_arguments`. -/
theorem claim_C8 (args : List Nat) (h : args.length % 4 = 3) :
    normalize_arguments args = args ∧
      lint_arguments (normalize_arguments args) = false := by
  have h1 : ¬ args.length % 4 = 1 := by omega
  have h2 : ¬ args.length % 4 = 2 := by omega
  have hn : normalize_arguments args = args := by
    simp [normalize_arguments, h1, h2]
  refine ⟨hn, ?_⟩
  rw [hn]
  unfold lint_arguments
  rw [if_neg (by simp [List.isEmpty_iff]; intro he; subst he; simp at h)]
  rw [Bool.eq_false_iff]
  intro hc
  obtain ⟨ss, hss, -⟩ := (lint_chunks_iff args).mp hc
  have := toSlots_length args ss hss
  omega

/-- C8 witness at the concrete 3-token vector `[1, 2, 3]`. -/
theorem claim_C8_witness :
    normalize_arguments [1, 2, 3] = [1, 2, 3] ∧
      lint_arguments (normalize_arguments [1, 2, 3]) = false :=
  claim_C8 [1, 2, 3] (by decide)

/-- C10: `normalize_arguments` only appends — its output is the input
followed by at most 3 extra tokens. -/
theorem claim_C10 (args : List Nat) :
    ∃ extra : List Nat,
      normalize_arguments args = args ++ extra ∧ extra.length ≤ 3 := by
  unfold normalize_arguments
  by_cases h1 : args.length % 4 = 1
  · have h2 : (args.length + 1) % 4 = 2 := by omega
    exact ⟨[args.getD (args.length - 1) 0, 0, 0x7fffffff], by simp [h1, h2], by simp⟩
  · by_cases h2 : args.length % 4 = 2
    · exact ⟨[0, 0x7fffffff], by simp [h1, h2], by simp⟩
    · exact ⟨[], by simp [h1, h2], by simp⟩

/-- C3, counterexample: `lint_arguments` accepts the slot
`(0, 10, 5, 20)` even though `[0, 10] ⊄ [5, 20]` — the subset condition
`range_min ≤ match_min` fails (`5 ≤ 0` is false), so `lint_arguments`
does not enforce the subset invariant claimed by the spec. -/
theorem claim_C3_counterexample :
    lint_arguments [0, 10, 5, 20] = true ∧ ¬ (5 ≤ 0 ∧ 10 ≤ 20) := by
  constructor
  · decide
  · decide

/-- C3, amended: `lint_arguments` returns `true` iff the vector is
nonempty, chunks evenly into 4-tuples, and every 4-tuple
`(match_min, match_max, range_min, range_max)` satisfies
`match_min ≤ match_max`, `range_min ≤ range_max`, the two intervals
intersect (`range_min ≤ match_max` and `match_min ≤ range_max`), and
`range_max, match_max ≤ 0x7FFFFFFF`; any slot violating one of these
makes `lint_arguments` return `false`.  (The code checks intersection,
not the subset condition claimed by the spec.) -/
theorem claim_C3 (args : List Nat) :
    lint_arguments args = true ↔
      args ≠ [] ∧ ∃ ss : List Slot, toSlots args = some ss ∧ ∀ sl ∈ ss, slotInv sl := by
  unfold lint_arguments
  by_cases he : args = []
  · subst he; simp
  · rw [if_neg (by simpa [List.isEmpty_iff] using he)]
    rw [lint_chunks_iff args]
    simp [he]

/-- C3 witness: instantiates the amended claim at `[5, 10, 5, 20]`. -/
theorem claim_C3_witness :
    lint_arguments [5, 10, 5, 20] = true ↔
      ([5, 10, 5, 20] : List Nat) ≠ [] ∧
        ∃ ss : List Slot, toSlots [5, 10, 5, 20] = some ss ∧ ∀ sl ∈ ss, slotInv sl :=
  claim_C3 [5, 10, 5, 20]

/-- C4: the code bug — `lint_arguments` has no slot-count check, so a
36-token vector (9 valid slots, more than the 8-slot maximum required by
the spec) passes lint instead of failing it. -/
theorem claim_C4 :
    lint_arguments
      [1, 1, 0, 0x7fffffff, 1, 1, 0, 0x7fffffff, 1, 1, 0, 0x7fffffff,
       1, 1, 0, 0x7fffffff, 1, 1, 0, 0x7fffffff, 1, 1, 0, 0x7fffffff,
       1, 1, 0, 0x7fffffff, 1, 1, 0, 0x7fffffff, 1, 1, 0, 0x7fffffff] = true := by
  decide

/-- C5: for a 1000-word result buffer, the readback declares overflow
and returns `none` exactly when `1 + word0 > 1000`; on overflow `main`
exits with status 1; otherwise the readback returns exactly the `word0`
seeds stored in words `1..1 + word0`. -/
theorem claim_C5 (result : List Nat) (hlen : result.length = 1000) :
    (read_dispatch_results result = none ↔ 1 + result.headD 0 > 1000) ∧
    (∀ rest : List (List Nat), read_dispatch_results result = none →
      (main_steps (result :: rest)).1 = 1) ∧
    (1 + result.headD 0 ≤ 1000 →
      read_dispatch_results result = some ((result.drop 1).take (result.headD 0))) := by
  refine ⟨?_, ?_, ?_⟩
  · simp only [read_dispatch_results]
    rw [hlen]
    by_cases h : 1 + result.headD 0 > 1000
    · simp [h]
    · simp [h]
  · intro rest hnone
    simp [main_steps, hnone]
  · intro h
    simp only [read_dispatch_results]
    rw [hlen, if_neg (by omega), Nat.add_sub_cancel_left]

set_option maxRecDepth 10000 in
/-- C5 witness: a concrete 1000-word buffer with `word0 = 0` — no
overflow, zero seeds returned. -/
theorem claim_C5_witness :
    read_dispatch_results (0 :: List.replicate 999 7) =
      some (((0 :: List.replicate 999 7).drop 1).take
        ((0 :: List.replicate 999 (7 : Nat)).headD 0)) :=
  (claim_C5 (0 :: List.replicate 999 7) (by decide)).2.2 (by decide)

/-- C9: whenever `lint_arguments` rejects the normalized arguments —
including for the empty argument list — `main` prints the usage text,
returns with exit status 0, and runs no GPU dispatch. -/
theorem claim_C9 (args : List Nat) (buffers : List (List Nat))
    (h : lint_arguments (normalize_arguments args) = false) :
    main_model args buffers = (0, true, 0) := by
  simp [main_model, h]

/-- C9 witness: the empty argument list. -/
theorem claim_C9_witness : main_model [] [] = (0, true, 0) :=
  claim_C9 [] [] (by decide)

/-- C2, counterexample: seed `0xFFFFFFFF` is examined by no invocation
of any of the 256 dispatches of 65535 workgroups of 256 invocations —
the largest seed reached is `255 + 256·(65534·256 + 255) = 2^32 - 2^16 -
1`, so the enumeration is not a cover of `[0, 2^32)`. -/
theorem claim_C2_counterexample :
    ¬ ∃ t : Nat × Nat × Nat,
        t.1 < 256 ∧ t.2.1 < 65535 ∧ t.2.2 < 256 ∧
          seedOf t.1 t.2.1 t.2.2 = 4294967295 := by
  rintro ⟨⟨a, b, c⟩, h1, h2, h3, h4⟩
  unfold seedOf at h4
  omega

/-- C2, amended: the 256 dispatches of 65535 workgroups of 256
invocations enumerate each seed in `[0, 2^32 - 2^16)` exactly once, and
no seed of `[2^32 - 2^16, 2^32)` at all: 65535 workgroups (not 65536)
leave the top 65536 seeds unsearched. -/
theorem claim_C2 :
    (∀ s : Nat, s < 4294901760 →
      ∃! t : Nat × Nat × Nat,
        t.1 < 256 ∧ t.2.1 < 65535 ∧ t.2.2 < 256 ∧ seedOf t.1 t.2.1 t.2.2 = s) ∧
    (∀ s : Nat, 4294901760 ≤ s → ¬ dispatchCovers s) := by
  constructor
  · intro s hs
    refine ⟨(s % 256, s / 65536, s / 256 % 256), ?_, ?_⟩
    · show s % 256 < 256 ∧ s / 65536 < 65535 ∧ s / 256 % 256 < 256 ∧
        seedOf (s % 256) (s / 65536) (s / 256 % 256) = s
      unfold seedOf
      omega
    · rintro ⟨a, b, c⟩ ⟨h1, h2, h3, h4⟩
      dsimp only at h1 h2 h3 h4
      unfold seedOf at h4
      simp only [Prod.mk.injEq]
      omega
  · rintro s hs ⟨step, wg, inv, h1, h2, h3, h4⟩
    unfold seedOf at h4
    omega

/-- C2 witness: instantiates the amended claim at seed 4242 (and checks
the unreachability half at seed `2^32 - 1`). -/
theorem claim_C2_witness :
    (∃! t : Nat × Nat × Nat,
      t.1 < 256 ∧ t.2.1 < 65535 ∧ t.2.2 < 256 ∧ seedOf t.1 t.2.1 t.2.2 = 4242) ∧
    ¬ dispatchCovers 4294967295 :=
  ⟨claim_C2.1 4242 (by decide), claim_C2.2 4294967295 (by decide)⟩

/-- If the reference generation of PHP outputs from a running MT state
succeeds, the predicate kernel accepts the diagonal query built from
those outputs: both sides draw from the same `slotDraw` stream. -/
theorem kernelGo_diag_of_outputs : ∀ (ranges : List (Nat × Nat)) (m : MTState)
    (fuel : Nat) (vs : List Nat),
    phpOutputsGo fuel m ranges = some vs →
    kernelGo fuel m (diagSlots vs ranges) = true
  | [], m, fuel, vs => by
      intro h
      simp only [phpOutputsGo, Option.some.injEq] at h
      subst h
      simp [diagSlots, kernelGo]
  | (lo, hi) :: rest, m, fuel, vs => by
      intro h
      simp only [phpOutputsGo] at h
      rcases hr : slotDraw m lo hi fuel with - | vm'
      · rw [hr] at h; exact absurd h (by simp)
      · rw [hr] at h
        obtain ⟨v, m'⟩ := vm'
        simp only [Option.map_eq_some'] at h
        obtain ⟨vs', hrest, rfl⟩ := h
        simp only [diagSlots, List.zipWith_cons_cons, kernelGo, hr]
        rw [if_neg (by simp)]
        exact kernelGo_diag_of_outputs rest m' fuel vs' hrest

set_option maxRecDepth 100000 in
/-- The model reproduces `test_find_seed_0` (src/src/main.rs lines
334-342): seed 0, default range, observed value 1178568022. -/
theorem model_matches_test_find_seed_0 :
    phpOutputs 0 [(0, 0x7fffffff)] 1 = some [1178568022] := by decide

set_option maxRecDepth 100000 in
/-- The model reproduces `test_find_seed_0_short_range`
(src/src/main.rs lines 344-355): seed 0, range `(0, 21474836)`, observed
value 16378811 — this is PHP 7.1's modulo rejection on the full 32-bit
tempered word, not a mask rejection of the 31-bit word. -/
theorem model_matches_test_find_seed_0_short_range :
    phpOutputs 0 [(0, 21474836)] 1 = some [16378811] := by decide

set_option maxRecDepth 100000 in
/-- The model reproduces `test_find_seed_with_multiple_outputs_default_range`
(src/src/main.rs lines 366-376): seed 4242, three default-range
observations. -/
theorem model_matches_test_default_range :
    phpOutputs 4242 [(0, 0x7fffffff), (0, 0x7fffffff), (0, 0x7fffffff)] 1 =
      some [697823703, 1736388855, 2019524934] := by decide

set_option maxRecDepth 100000 in
/-- The model reproduces `test_find_seed_with_multiple_outputs_shorter_ranges`
(src/src/main.rs lines 378-387): seed 424242, three `mt_rand(1000,
10000)` observations. -/
theorem model_matches_test_shorter_ranges :
    phpOutputs 424242 [(1000, 10000), (1000, 10000), (1000, 10000)] 1 =
      some [7505, 2986, 1457] := by decide

set_option maxRecDepth 100000 in
/-- C1, counterexample: seed `0xFFFFFFFF` lies in the 65536-seed gap
left by the 65535-workgroup dispatch: its own first observed output for
the default range `(0, 0x7FFFFFFF)` is 209663185, yet the full search
does not emit `0xFFFFFFFF` for the diagonal query built from that
output, because no invocation ever examines that seed. -/
theorem claim_C1_counterexample :
    phpOutputs 4294967295 [(0, 0x7fffffff)] 1 = some [209663185] ∧
      ¬ searchEmits (diagSlots [209663185] [(0, 0x7fffffff)]) 1 4294967295 := by
  constructor
  · decide
  · rintro ⟨⟨step, wg, inv, h1, h2, h3, h4⟩, -⟩
    unfold seedOf at h4
    omega

/-- C1, amended: for every seed `s` that the dispatch grid reaches
(`s < 2^32 - 2^16`), feeding the first `k` observed outputs of PHP
7.1.0+ seeded with `s` — `mt_rand()` for the default range
`(0, 0x7FFFFFFF)`, `mt_rand(a_i, b_i)` otherwise — back as the diagonal
query `(v_i, v_i, a_i, b_i)` makes the full 256-step search emit `s`. -/
theorem claim_C1 (s fuel : Nat) (ranges : List (Nat × Nat)) (vs : List Nat)
    (hs : s < 4294901760) (houts : phpOutputs s ranges fuel = some vs) :
    searchEmits (diagSlots vs ranges) fuel s := by
  constructor
  · exact ⟨s % 256, s / 65536, s / 256 % 256, by omega, by omega, by omega, by
      unfold seedOf; omega⟩
  · exact kernelGo_diag_of_outputs ranges (mtSeed s) fuel vs houts

set_option maxRecDepth 100000 in
/-- C1 witness: seed 424242 with the three `mt_rand(1000, 10000)`
observations 7505, 2986, 1457 of the repository's
`test_find_seed_with_multiple_outputs_shorter_ranges` — the search emits
seed 424242 for the diagonal query built from them. -/
theorem claim_C1_witness :
    searchEmits
      (diagSlots [7505, 2986, 1457] [(1000, 10000), (1000, 10000), (1000, 10000)])
      1 424242 :=
  claim_C1 424242 1 [(1000, 10000), (1000, 10000), (1000, 10000)]
    [7505, 2986, 1457] (by decide) (by decide)

end PhpMtSeed
